import Mathlib

/-!
Verification of the Cloud Composer trigger module
(`airflow/providers/google/cloud/triggers/cloud_composer.py`).

The module defines two asynchronous triggers:

* `CloudComposerExecutionTrigger` polls `gcp_hook.get_operation` in a loop,
  sleeping `pooling_period_seconds` between polls, until the returned
  operation handle is `done` (then it yields one `TriggerEvent`) or carries a
  non-empty error message (then it raises an `AirflowException`).
* `CloudComposerAirflowCLICommandTrigger` awaits a single
  `gcp_hook.wait_command_execution_result` call and yields one success or
  error `TriggerEvent`, catching `AirflowException` and letting other
  exceptions propagate.

The embedding below models the remote hook as an explicit argument: the poll
watcher receives the sequence of operation handles returned by successive
`get_operation` calls (indexed by call number), the command watcher receives
a function from the argument record of the single `wait_command_execution_result`
call to its response.  The unbounded `while True` loop is embedded with
explicit fuel; a run records the trace of hook calls made, the trace of
sleep durations, and the final outcome (events yielded, exception raised,
or fuel exhausted while still polling).
-/

/-- A primitive serialized parameter value: the values appearing in the
dictionaries built by the two `serialize` methods (strings, string
sequences, integers, `None`, nested dictionaries, and opaque results). -/
inductive ParamValue where
  | str (s : String)
  | strList (l : List String)
  | int (n : Int)
  | null
  | dict (d : List (String × ParamValue))

/-- The error field of an operation handle (`operation.error`), carrying a
message string; an empty message means no error is reported. -/
structure OperationError where
  message : String
deriving DecidableEq

/-- An operation handle as returned by `gcp_hook.get_operation`: its
resource `name`, the `done` flag, and the `error` field. -/
structure Operation where
  name : String
  done : Bool
  error : OperationError
deriving DecidableEq

/-- A `TriggerEvent` payload produced by one of the two triggers: either the
poll watcher's `{"operation_name": ..., "operation_done": ...}` dictionary,
or the command watcher's `{"status": "success", "result": ...}` or
`{"status": "error", "message": ...}` dictionary. -/
inductive TriggerEvent where
  | operationEvent (operation_name : String) (operation_done : Bool)
  | successEvent (result : ParamValue)
  | errorEvent (message : String)

/-- `True` exactly for terminal events: `operation_done = true`, a success
event, or an error event. -/
def TriggerEvent.isTerminal : TriggerEvent → Bool
  | .operationEvent _ d => d
  | .successEvent _ => true
  | .errorEvent _ => true

/-- The `impersonation_chain` constructor argument:
`str | Sequence[str] | None`. -/
abbrev ImpersonationChain : Type := Option (String ⊕ List String)

/-- The constructor parameters of `CloudComposerExecutionTrigger`.  The
`gcp_hook` built in `__init__` is fully determined by `gcp_conn_id` and
`impersonation_chain`, so it is not a separate field; the hook's behaviour
is passed to `run` explicitly. -/
structure CloudComposerExecutionTrigger where
  project_id : String
  region : String
  operation_name : String
  gcp_conn_id : String
  impersonation_chain : ImpersonationChain
  pooling_period_seconds : Nat

/-- Outcome of a poll-watcher run: the events yielded on normal
termination, the message of a raised `AirflowException`, or fuel
exhaustion while the `while True` loop is still polling. -/
inductive PollOutcome where
  | yielded (events : List TriggerEvent)
  | raised (msg : String)
  | stillPolling

/-- Observable trace of a poll-watcher run: the call numbers of the
`get_operation` calls made (in order), the durations passed to
`asyncio.sleep` (in order), and the final outcome. -/
structure PollTrace where
  calls : List Nat
  sleeps : List Nat
  outcome : PollOutcome

/-- The body of `CloudComposerExecutionTrigger.run`, with explicit fuel:
`getOperation i` is the handle returned by the `(i+1)`-th
`get_operation(operation_name=self.operation_name)` call.  Mirrors the
source loop: `if operation.done: break`, `elif operation.error.message:
raise AirflowException(f"Cloud Composer Environment error: {...}")`,
`await asyncio.sleep(self.pooling_period_seconds)`; after the loop one
`TriggerEvent({"operation_name": operation.name, "operation_done":
operation.done})` is yielded. -/
def runExecutionAux (getOperation : Nat → Operation) (period : Nat) :
    Nat → Nat → PollTrace
  | 0, _ => ⟨[], [], PollOutcome.stillPolling⟩
  | fuel + 1, i =>
    let operation := getOperation i
    if operation.done then
      ⟨[i], [], PollOutcome.yielded
        [TriggerEvent.operationEvent operation.name operation.done]⟩
    else if operation.error.message ≠ "" then
      ⟨[i], [], PollOutcome.raised
        ("Cloud Composer Environment error: " ++ operation.error.message)⟩
    else
      let rest := runExecutionAux getOperation period fuel (i + 1)
      ⟨i :: rest.calls, period :: rest.sleeps, rest.outcome⟩

/-- `CloudComposerExecutionTrigger.run` under a remote client returning
`getOperation i` on the `(i+1)`-th poll, executed with the given fuel. -/
def CloudComposerExecutionTrigger.run (t : CloudComposerExecutionTrigger)
    (getOperation : Nat → Operation) (fuel : Nat) : PollTrace :=
  runExecutionAux getOperation t.pooling_period_seconds fuel 0

/-- The events a `PollOutcome` yields (none on the raised and
fuel-exhausted paths). -/
def PollOutcome.events : PollOutcome → List TriggerEvent
  | .yielded evs => evs
  | .raised _ => []
  | .stillPolling => []

/-- The constructor parameters of `CloudComposerAirflowCLICommandTrigger`.
As for the poll watcher, the `gcp_hook` is determined by `gcp_conn_id`
and `impersonation_chain`. -/
structure CloudComposerAirflowCLICommandTrigger where
  project_id : String
  region : String
  environment_id : String
  execution_cmd_info : List (String × ParamValue)
  gcp_conn_id : String
  impersonation_chain : ImpersonationChain
  poll_interval : Nat

/-- The argument record of the single
`gcp_hook.wait_command_execution_result` call made by
`CloudComposerAirflowCLICommandTrigger.run`. -/
structure WaitCall where
  project_id : String
  region : String
  environment_id : String
  execution_cmd_info : List (String × ParamValue)
  poll_interval : Nat

/-- Behaviour of one `wait_command_execution_result` call: return a result,
raise an `AirflowException` with a message, or raise some other exception. -/
inductive WaitResponse where
  | ok (result : ParamValue)
  | airflowError (msg : String)
  | otherError (e : String)

/-- Outcome of a command-watcher run: events yielded on normal termination,
or an uncaught exception propagated to the host. -/
inductive CliOutcome where
  | yielded (events : List TriggerEvent)
  | raised (e : String)

/-- Observable trace of a command-watcher run: the one `WaitCall` made and
the outcome. -/
structure CliRun where
  call : WaitCall
  outcome : CliOutcome

/-- The events a `CliOutcome` yields (none on the propagated-exception
path). -/
def CliOutcome.events : CliOutcome → List TriggerEvent
  | .yielded evs => evs
  | .raised _ => []

/-- `CloudComposerAirflowCLICommandTrigger.run` under a remote client whose
single `wait_command_execution_result` call behaves as `hook`.  Mirrors the
source: the call passes `project_id`, `region`, `environment_id`,
`execution_cmd_info` and `poll_interval` through unchanged; an
`AirflowException ex` is caught and turned into
`{"status": "error", "message": str(ex)}`; a result `r` yields
`{"status": "success", "result": r}`; any other exception propagates. -/
def CloudComposerAirflowCLICommandTrigger.run
    (t : CloudComposerAirflowCLICommandTrigger)
    (hook : WaitCall → WaitResponse) : CliRun :=
  let call : WaitCall :=
    ⟨t.project_id, t.region, t.environment_id, t.execution_cmd_info,
      t.poll_interval⟩
  match hook call with
  | WaitResponse.ok result =>
    ⟨call, CliOutcome.yielded [TriggerEvent.successEvent result]⟩
  | WaitResponse.airflowError msg =>
    ⟨call, CliOutcome.yielded [TriggerEvent.errorEvent msg]⟩
  | WaitResponse.otherError e =>
    ⟨call, CliOutcome.raised e⟩

/-- Encoding of an `impersonation_chain` value in a serialized parameter
dictionary: `None` serializes to `None`, a string to a string, a string
sequence to a string sequence. -/
def encodeChain : ImpersonationChain → ParamValue
  | Option.none => ParamValue.null
  | Option.some (Sum.inl s) => ParamValue.str s
  | Option.some (Sum.inr l) => ParamValue.strList l

/-- `CloudComposerExecutionTrigger.serialize`: the `(classpath, kwargs)`
pair, with the six constructor parameters under their parameter names. -/
def CloudComposerExecutionTrigger.serialize
    (t : CloudComposerExecutionTrigger) :
    String × List (String × ParamValue) :=
  ("airflow.providers.google.cloud.triggers.cloud_composer.CloudComposerExecutionTrigger",
    [("project_id", ParamValue.str t.project_id),
     ("region", ParamValue.str t.region),
     ("operation_name", ParamValue.str t.operation_name),
     ("gcp_conn_id", ParamValue.str t.gcp_conn_id),
     ("impersonation_chain", encodeChain t.impersonation_chain),
     ("pooling_period_seconds", ParamValue.int t.pooling_period_seconds)])

/-- `CloudComposerAirflowCLICommandTrigger.serialize`: the
`(classpath, kwargs)` pair, with the seven constructor parameters under
their parameter names. -/
def CloudComposerAirflowCLICommandTrigger.serialize
    (t : CloudComposerAirflowCLICommandTrigger) :
    String × List (String × ParamValue) :=
  ("airflow.providers.google.cloud.triggers.cloud_composer.CloudComposerAirflowCLICommandTrigger",
    [("project_id", ParamValue.str t.project_id),
     ("region", ParamValue.str t.region),
     ("environment_id", ParamValue.str t.environment_id),
     ("execution_cmd_info", ParamValue.dict t.execution_cmd_info),
     ("gcp_conn_id", ParamValue.str t.gcp_conn_id),
     ("impersonation_chain", encodeChain t.impersonation_chain),
     ("poll_interval", ParamValue.int t.poll_interval)])

/-- First value bound to `key` in a parameter dictionary, if any. -/
def lookupParam (params : List (String × ParamValue)) (key : String) :
    Option ParamValue :=
  match params with
  | [] => Option.none
  | (k, v) :: rest => if k = key then Option.some v else lookupParam rest key

/-- Decode a string-valued parameter; fails on a missing key or a value of
another shape. -/
def decodeStr : Option ParamValue → Option String
  | Option.some (ParamValue.str s) => Option.some s
  | _ => Option.none

/-- Decode a non-negative integer parameter; fails on a missing key, a
value of another shape, or a negative integer. -/
def decodeNat : Option ParamValue → Option Nat
  | Option.some (ParamValue.int n) => if n < 0 then Option.none else Option.some n.toNat
  | _ => Option.none

/-- Decode a dictionary-valued parameter. -/
def decodeDict : Option ParamValue → Option (List (String × ParamValue))
  | Option.some (ParamValue.dict d) => Option.some d
  | _ => Option.none

/-- Decode an `impersonation_chain` parameter (`None`, a string, or a
string sequence). -/
def decodeChain : Option ParamValue → Option ImpersonationChain
  | Option.some ParamValue.null => Option.some Option.none
  | Option.some (ParamValue.str s) => Option.some (Option.some (Sum.inl s))
  | Option.some (ParamValue.strList l) => Option.some (Option.some (Sum.inr l))
  | _ => Option.none

/-- Modelled from the spec: the host-side deserialization of a
`CloudComposerExecutionTrigger` descriptor is not under `src/` (it lives in
the host's trigger machinery, which calls the constructor with the
serialized mapping as keyword arguments).  Per the spec, construction from
a descriptor's parameter mapping reads each named constructor parameter
from the mapping and fails fast on malformed parameters. -/
def deserializeExecutionTrigger (params : List (String × ParamValue)) :
    Option CloudComposerExecutionTrigger := do
  let project_id ← decodeStr (lookupParam params "project_id")
  let region ← decodeStr (lookupParam params "region")
  let operation_name ← decodeStr (lookupParam params "operation_name")
  let gcp_conn_id ← decodeStr (lookupParam params "gcp_conn_id")
  let impersonation_chain ← decodeChain (lookupParam params "impersonation_chain")
  let pooling_period_seconds ← decodeNat (lookupParam params "pooling_period_seconds")
  Option.some
    ⟨project_id, region, operation_name, gcp_conn_id, impersonation_chain,
      pooling_period_seconds⟩

/-- Modelled from the spec: the host-side deserialization of a
`CloudComposerAirflowCLICommandTrigger` descriptor, reading each named
constructor parameter from the serialized mapping, as for
`deserializeExecutionTrigger`. -/
def deserializeCLICommandTrigger (params : List (String × ParamValue)) :
    Option CloudComposerAirflowCLICommandTrigger := do
  let project_id ← decodeStr (lookupParam params "project_id")
  let region ← decodeStr (lookupParam params "region")
  let environment_id ← decodeStr (lookupParam params "environment_id")
  let execution_cmd_info ← decodeDict (lookupParam params "execution_cmd_info")
  let gcp_conn_id ← decodeStr (lookupParam params "gcp_conn_id")
  let impersonation_chain ← decodeChain (lookupParam params "impersonation_chain")
  let poll_interval ← decodeNat (lookupParam params "poll_interval")
  Option.some
    ⟨project_id, region, environment_id, execution_cmd_info, gcp_conn_id,
      impersonation_chain, poll_interval⟩

/-- The argument record of the `wait_command_execution_result` call that
`CloudComposerAirflowCLICommandTrigger.run` makes: every field is the
corresponding constructor parameter, unchanged. -/
def CloudComposerAirflowCLICommandTrigger.waitCall
    (t : CloudComposerAirflowCLICommandTrigger) : WaitCall :=
  ⟨t.project_id, t.region, t.environment_id, t.execution_cmd_info,
    t.poll_interval⟩

theorem run_cli_eq (t : CloudComposerAirflowCLICommandTrigger)
    (hook : WaitCall → WaitResponse) :
    t.run hook =
      match hook t.waitCall with
      | WaitResponse.ok result =>
        ⟨t.waitCall, CliOutcome.yielded [TriggerEvent.successEvent result]⟩
      | WaitResponse.airflowError msg =>
        ⟨t.waitCall, CliOutcome.yielded [TriggerEvent.errorEvent msg]⟩
      | WaitResponse.otherError e =>
        ⟨t.waitCall, CliOutcome.raised e⟩ := rfl

theorem runExecutionAux_done (get : Nat → Operation) (period i fuel : Nat)
    (h : (get i).done = true) :
    runExecutionAux get period (fuel + 1) i =
      ⟨[i], [], PollOutcome.yielded
        [TriggerEvent.operationEvent (get i).name (get i).done]⟩ := by
  simp only [runExecutionAux, h, if_true]

theorem runExecutionAux_error (get : Nat → Operation) (period i fuel : Nat)
    (hd : (get i).done = false) (he : (get i).error.message ≠ "") :
    runExecutionAux get period (fuel + 1) i =
      ⟨[i], [], PollOutcome.raised
        ("Cloud Composer Environment error: " ++ (get i).error.message)⟩ := by
  simp only [runExecutionAux, hd, he, if_false, if_true, Bool.false_eq_true,
    ite_false, ite_true, ne_eq, not_false_iff]

theorem runExecutionAux_continue (get : Nat → Operation) (period i fuel : Nat)
    (hd : (get i).done = false) (he : (get i).error.message = "") :
    runExecutionAux get period (fuel + 1) i =
      ⟨i :: (runExecutionAux get period fuel (i + 1)).calls,
        period :: (runExecutionAux get period fuel (i + 1)).sleeps,
        (runExecutionAux get period fuel (i + 1)).outcome⟩ := by
  simp [runExecutionAux, hd, he]

/-- Full trace of the poll loop when the handles at offsets `0, …, n-1`
from `i` are neither done nor errored and the handle at offset `n` is
done: the loop makes calls `i, …, i+n`, sleeps `n` times for `period`,
and yields one event built from the final handle. -/
theorem runExecutionAux_poll_done (get : Nat → Operation) (period : Nat) :
    ∀ (n i fuel : Nat), n < fuel →
      (∀ k, k < n →
        (get (i + k)).done = false ∧ (get (i + k)).error.message = "") →
      (get (i + n)).done = true →
      runExecutionAux get period fuel i =
        ⟨List.range' i (n + 1), List.replicate n period,
          PollOutcome.yielded
            [TriggerEvent.operationEvent (get (i + n)).name true]⟩ := by
  intro n
  induction n with
  | zero =>
    intro i fuel hf _ hdone
    obtain ⟨f, rfl⟩ : ∃ f, fuel = f + 1 := ⟨fuel - 1, by omega⟩
    rw [runExecutionAux_done get period i f (by simpa using hdone)]
    simp only [List.range', List.replicate]
    have h0 : (get (i + 0)).done = true := hdone
    simp only [Nat.add_zero] at h0
    simp [h0]
  | succ n ih =>
    intro i fuel hf hgood hdone
    obtain ⟨f, rfl⟩ : ∃ f, fuel = f + 1 := ⟨fuel - 1, by omega⟩
    have h0 := hgood 0 (by omega)
    simp only [Nat.add_zero] at h0
    rw [runExecutionAux_continue get period i f h0.1 h0.2]
    have hgood1 : ∀ k, k < n →
        (get (i + 1 + k)).done = false ∧ (get (i + 1 + k)).error.message = "" := by
      intro k hk
      have heq : i + 1 + k = i + (k + 1) := by omega
      rw [heq]
      exact hgood (k + 1) (by omega)
    have hdone1 : (get (i + 1 + n)).done = true := by
      have heq : i + 1 + n = i + (n + 1) := by omega
      rw [heq]
      exact hdone
    rw [ih (i + 1) f (by omega) hgood1 hdone1]
    have heq : i + 1 + n = i + (n + 1) := by omega
    rw [heq]
    simp [List.range', List.replicate_succ]

/-- Prefix of the poll loop's trace: while the handles at offsets
`0, …, n-1` from `i` are neither done nor errored, the first `n + 1` calls
are `i, …, i+n` and the first `n` sleeps all last `period`, whatever
happens afterwards. -/
theorem runExecutionAux_prefix (get : Nat → Operation) (period : Nat) :
    ∀ (n i fuel : Nat), n < fuel →
      (∀ k, k < n →
        (get (i + k)).done = false ∧ (get (i + k)).error.message = "") →
      (runExecutionAux get period fuel i).calls.take (n + 1) =
        List.range' i (n + 1) ∧
      (runExecutionAux get period fuel i).sleeps.take n =
        List.replicate n period := by
  intro n
  induction n with
  | zero =>
    intro i fuel hf _
    obtain ⟨f, rfl⟩ : ∃ f, fuel = f + 1 := ⟨fuel - 1, by omega⟩
    by_cases hd : (get i).done = true
    · rw [runExecutionAux_done get period i f hd]
      simp [List.range']
    · have hd2 : (get i).done = false := by simpa using hd
      by_cases he : (get i).error.message = ""
      · rw [runExecutionAux_continue get period i f hd2 he]
        simp [List.range']
      · rw [runExecutionAux_error get period i f hd2 he]
        simp [List.range']
  | succ n ih =>
    intro i fuel hf hgood
    obtain ⟨f, rfl⟩ : ∃ f, fuel = f + 1 := ⟨fuel - 1, by omega⟩
    have h0 := hgood 0 (by omega)
    simp only [Nat.add_zero] at h0
    rw [runExecutionAux_continue get period i f h0.1 h0.2]
    have hgood1 : ∀ k, k < n →
        (get (i + 1 + k)).done = false ∧ (get (i + 1 + k)).error.message = "" := by
      intro k hk
      have heq : i + 1 + k = i + (k + 1) := by omega
      rw [heq]
      exact hgood (k + 1) (by omega)
    obtain ⟨hc, hs⟩ := ih (i + 1) f (by omega) hgood1
    constructor
    · simp only [List.take_succ_cons, hc]
      simp [List.range']
    · simp only [List.take_succ_cons, hs, List.replicate]

/-- The poll loop yields at most one event in every outcome. -/
theorem runExecutionAux_events_len (get : Nat → Operation) (period : Nat) :
    ∀ (fuel i : Nat),
      ((runExecutionAux get period fuel i).outcome.events).length ≤ 1 := by
  intro fuel
  induction fuel with
  | zero =>
    intro i
    simp [runExecutionAux, PollOutcome.events]
  | succ f ih =>
    intro i
    by_cases hd : (get i).done = true
    · rw [runExecutionAux_done get period i f hd]
      simp [PollOutcome.events]
    · have hd2 : (get i).done = false := by simpa using hd
      by_cases he : (get i).error.message = ""
      · rw [runExecutionAux_continue get period i f hd2 he]
        exact ih (i + 1)
      · rw [runExecutionAux_error get period i f hd2 he]
        simp [PollOutcome.events]

/-- A concrete poll watcher used as a sample input. -/
def sampleExecutionTrigger : CloudComposerExecutionTrigger :=
  { project_id := "example-project", region := "us-central1",
    operation_name := "operations/op-1", gcp_conn_id := "google_cloud_default",
    impersonation_chain := Option.none, pooling_period_seconds := 30 }

/-- A concrete command watcher used as a sample input. -/
def sampleCLITrigger : CloudComposerAirflowCLICommandTrigger :=
  { project_id := "example-project", region := "us-central1",
    environment_id := "env-1",
    execution_cmd_info := [("command", ParamValue.str "dags")],
    gcp_conn_id := "google_cloud_default",
    impersonation_chain := Option.none, poll_interval := 10 }

/-- A remote client whose every handle is done and also carries a
non-empty error message. -/
def doneWithError : Nat → Operation := fun _ =>
  ⟨"operations/op-1", true, ⟨"boom"⟩⟩

/-- A remote client returning not-done, error-free handles on the first
two calls and a done handle afterwards. -/
def samplePollResponses : Nat → Operation := fun i =>
  if i < 2 then ⟨"operations/op-1", false, ⟨""⟩⟩
  else ⟨"operations/op-1", true, ⟨""⟩⟩

/-- A remote client whose done handle carries a name different from the
sample watcher's configured `operation_name`. -/
def renamedDoneHandle : Nat → Operation := fun _ =>
  ⟨"operations/op-2", true, ⟨""⟩⟩

/-- C1 (counterexample): a handle whose error message "boom" is non-empty
but whose `done` flag is also true makes `run()` yield one event and
terminate normally, not raise — so a non-empty error message alone does
not imply the failure path. -/
theorem claim_C1_counterexample :
    ("boom" : String) ≠ "" ∧
    (sampleExecutionTrigger.run doneWithError 1).outcome =
      PollOutcome.yielded [TriggerEvent.operationEvent "operations/op-1" true] ∧
    ((sampleExecutionTrigger.run doneWithError 1).outcome.events).length = 1 :=
  ⟨by decide, rfl, rfl⟩

/-- C1 (amended): if the first handle has `done = false` and a non-empty
error message, `run()` makes one call, never sleeps, yields zero events,
and raises an `AirflowException` whose message contains the handle's error
message verbatim. -/
theorem claim_C1 (t : CloudComposerExecutionTrigger) (get : Nat → Operation)
    (fuel : Nat) (hdone : (get 0).done = false)
    (herr : (get 0).error.message ≠ "") :
    t.run get (fuel + 1) =
      ⟨[0], [], PollOutcome.raised
        ("Cloud Composer Environment error: " ++ (get 0).error.message)⟩ ∧
    (t.run get (fuel + 1)).outcome.events = [] := by
  unfold CloudComposerExecutionTrigger.run
  rw [runExecutionAux_error get t.pooling_period_seconds 0 fuel hdone herr]
  exact ⟨rfl, rfl⟩

/-- Witness for C1 at a concrete watcher and client. -/
theorem claim_C1_witness :
    sampleExecutionTrigger.run (fun _ => ⟨"operations/op-1", false, ⟨"boom"⟩⟩) 1 =
      ⟨[0], [], PollOutcome.raised
        ("Cloud Composer Environment error: " ++ "boom")⟩ ∧
    ((sampleExecutionTrigger.run
        (fun _ => ⟨"operations/op-1", false, ⟨"boom"⟩⟩) 1).outcome.events) = [] :=
  claim_C1 sampleExecutionTrigger
    (fun _ => ⟨"operations/op-1", false, ⟨"boom"⟩⟩) 0 rfl (by decide)

/-- C2: if the client returns not-done, error-free handles on the first N
calls and a done handle on call N+1, `run()` makes exactly the calls
0, …, N, sleeps exactly N times for the configured poll period, and yields
exactly one event with `operation_done = true`. -/
theorem claim_C2 (t : CloudComposerExecutionTrigger) (get : Nat → Operation)
    (N fuel : Nat) (hfuel : N < fuel)
    (hgood : ∀ k, k < N → (get k).done = false ∧ (get k).error.message = "")
    (hdone : (get N).done = true) :
    t.run get fuel =
      ⟨List.range' 0 (N + 1), List.replicate N t.pooling_period_seconds,
        PollOutcome.yielded [TriggerEvent.operationEvent (get N).name true]⟩ := by
  unfold CloudComposerExecutionTrigger.run
  have hgood0 : ∀ k, k < N →
      (get (0 + k)).done = false ∧ (get (0 + k)).error.message = "" := by
    intro k hk
    simpa using hgood k hk
  have hdone0 : (get (0 + N)).done = true := by simpa using hdone
  have h := runExecutionAux_poll_done get t.pooling_period_seconds N 0 fuel
    hfuel hgood0 hdone0
  simpa using h

/-- Witness for C2 with N = 2. -/
theorem claim_C2_witness :
    sampleExecutionTrigger.run samplePollResponses 3 =
      ⟨List.range' 0 3, List.replicate 2 30,
        PollOutcome.yielded
          [TriggerEvent.operationEvent "operations/op-1" true]⟩ :=
  claim_C2 sampleExecutionTrigger samplePollResponses 2 3 (by decide)
    (by decide) (by decide)

/-- C3: for either watcher type, deserializing the parameter mapping
produced by `serialize` reconstructs the watcher losslessly, and the
reconstructed watcher's run under any remote client equals the original
watcher's run. -/
theorem claim_C3 :
    (∀ (w : CloudComposerExecutionTrigger) (get : Nat → Operation) (fuel : Nat),
      ∃ w2, deserializeExecutionTrigger w.serialize.2 = Option.some w2 ∧
        w2 = w ∧ w2.run get fuel = w.run get fuel) ∧
    (∀ (w : CloudComposerAirflowCLICommandTrigger) (hook : WaitCall → WaitResponse),
      ∃ w2, deserializeCLICommandTrigger w.serialize.2 = Option.some w2 ∧
        w2 = w ∧ w2.run hook = w.run hook) := by
  constructor
  · intro w get fuel
    refine ⟨w, ?_, rfl, rfl⟩
    obtain ⟨pid, reg, opn, cid, ic, pp⟩ := w
    have hnn : ¬((pp : Int) < 0) := by omega
    rcases ic with _ | ch
    · simp [deserializeExecutionTrigger, CloudComposerExecutionTrigger.serialize,
        lookupParam, decodeStr, decodeChain, decodeNat, encodeChain, hnn,
        Int.toNat_natCast]
    · rcases ch with s | l <;>
        simp [deserializeExecutionTrigger, CloudComposerExecutionTrigger.serialize,
          lookupParam, decodeStr, decodeChain, decodeNat, encodeChain, hnn,
          Int.toNat_natCast]
  · intro w hook
    refine ⟨w, ?_, rfl, rfl⟩
    obtain ⟨pid, reg, eid, info, cid, ic, pi⟩ := w
    have hnn : ¬((pi : Int) < 0) := by omega
    rcases ic with _ | ch
    · simp [deserializeCLICommandTrigger,
        CloudComposerAirflowCLICommandTrigger.serialize, lookupParam,
        decodeStr, decodeChain, decodeNat, decodeDict, encodeChain, hnn,
        Int.toNat_natCast]
    · rcases ch with s | l <;>
        simp [deserializeCLICommandTrigger,
          CloudComposerAirflowCLICommandTrigger.serialize, lookupParam,
          decodeStr, decodeChain, decodeNat, decodeDict, encodeChain, hnn,
          Int.toNat_natCast]

/-- C4: if the wait call raises an `AirflowException` with message "boom",
`run()` terminates normally yielding exactly one
`{"status": "error", "message": "boom"}` event. -/
theorem claim_C4 (t : CloudComposerAirflowCLICommandTrigger)
    (hook : WaitCall → WaitResponse)
    (h : hook t.waitCall = WaitResponse.airflowError "boom") :
    t.run hook =
      ⟨t.waitCall, CliOutcome.yielded [TriggerEvent.errorEvent "boom"]⟩ := by
  rw [run_cli_eq, h]

/-- Witness for C4 at a concrete watcher and client. -/
theorem claim_C4_witness :
    sampleCLITrigger.run (fun _ => WaitResponse.airflowError "boom") =
      ⟨sampleCLITrigger.waitCall,
        CliOutcome.yielded [TriggerEvent.errorEvent "boom"]⟩ :=
  claim_C4 sampleCLITrigger (fun _ => WaitResponse.airflowError "boom") rfl

/-- C5: if the wait call returns result R, `run()` yields exactly one
`{"status": "success", "result": R}` event, and the call record passed to
the remote client consists of the watcher's own constructor parameters
unchanged. -/
theorem claim_C5 (t : CloudComposerAirflowCLICommandTrigger)
    (hook : WaitCall → WaitResponse) (R : ParamValue)
    (h : hook t.waitCall = WaitResponse.ok R) :
    t.run hook =
      ⟨t.waitCall, CliOutcome.yielded [TriggerEvent.successEvent R]⟩ ∧
    t.waitCall = ⟨t.project_id, t.region, t.environment_id,
      t.execution_cmd_info, t.poll_interval⟩ := by
  refine ⟨?_, rfl⟩
  rw [run_cli_eq, h]

/-- Witness for C5 at a concrete watcher, client and result. -/
theorem claim_C5_witness :
    sampleCLITrigger.run (fun _ => WaitResponse.ok (ParamValue.str "output")) =
      ⟨sampleCLITrigger.waitCall,
        CliOutcome.yielded [TriggerEvent.successEvent (ParamValue.str "output")]⟩ ∧
    sampleCLITrigger.waitCall =
      ⟨sampleCLITrigger.project_id, sampleCLITrigger.region,
        sampleCLITrigger.environment_id, sampleCLITrigger.execution_cmd_info,
        sampleCLITrigger.poll_interval⟩ :=
  claim_C5 sampleCLITrigger (fun _ => WaitResponse.ok (ParamValue.str "output"))
    (ParamValue.str "output") rfl

/-- C6: in a single run, neither watcher ever yields more than one
terminal event, for every watcher instance and every remote-client
behaviour. -/
theorem claim_C6 :
    (∀ (t : CloudComposerExecutionTrigger) (get : Nat → Operation) (fuel : Nat),
      (((t.run get fuel).outcome.events).filter TriggerEvent.isTerminal).length ≤ 1) ∧
    (∀ (t : CloudComposerAirflowCLICommandTrigger) (hook : WaitCall → WaitResponse),
      (((t.run hook).outcome.events).filter TriggerEvent.isTerminal).length ≤ 1) := by
  constructor
  · intro t get fuel
    calc (((t.run get fuel).outcome.events).filter TriggerEvent.isTerminal).length
        ≤ ((t.run get fuel).outcome.events).length :=
          List.length_filter_le _ _
      _ ≤ 1 := runExecutionAux_events_len get t.pooling_period_seconds fuel 0
  · intro t hook
    rw [run_cli_eq]
    cases hook t.waitCall <;>
      simp [CliOutcome.events, TriggerEvent.isTerminal]

/-- C7: if the wait call raises an exception that is not an
`AirflowException`, `run()` propagates it unhandled and yields no
event. -/
theorem claim_C7 (t : CloudComposerAirflowCLICommandTrigger)
    (hook : WaitCall → WaitResponse) (e : String)
    (h : hook t.waitCall = WaitResponse.otherError e) :
    t.run hook = ⟨t.waitCall, CliOutcome.raised e⟩ ∧
    (t.run hook).outcome.events = [] := by
  have h1 : t.run hook = ⟨t.waitCall, CliOutcome.raised e⟩ := by
    rw [run_cli_eq, h]
  refine ⟨h1, ?_⟩
  rw [h1]
  rfl

/-- Witness for C7 at a concrete watcher and client. -/
theorem claim_C7_witness :
    sampleCLITrigger.run (fun _ => WaitResponse.otherError "ValueError") =
      ⟨sampleCLITrigger.waitCall, CliOutcome.raised "ValueError"⟩ ∧
    (sampleCLITrigger.run
      (fun _ => WaitResponse.otherError "ValueError")).outcome.events = [] :=
  claim_C7 sampleCLITrigger (fun _ => WaitResponse.otherError "ValueError")
    "ValueError" rfl

/-- C8: while the first N handles are neither done nor errored, the poll
watcher makes the calls 0, …, N — in particular an (N+1)-th call, with no
retry bound — and each of the first N delays is exactly the configured
poll period. -/
theorem claim_C8 (t : CloudComposerExecutionTrigger) (get : Nat → Operation)
    (N fuel : Nat) (hfuel : N < fuel)
    (hgood : ∀ k, k < N → (get k).done = false ∧ (get k).error.message = "") :
    (t.run get fuel).calls.take (N + 1) = List.range' 0 (N + 1) ∧
    (t.run get fuel).sleeps.take N = List.replicate N t.pooling_period_seconds ∧
    N ∈ (t.run get fuel).calls := by
  unfold CloudComposerExecutionTrigger.run
  have hgood0 : ∀ k, k < N →
      (get (0 + k)).done = false ∧ (get (0 + k)).error.message = "" := by
    intro k hk
    simpa using hgood k hk
  obtain ⟨hc, hs⟩ := runExecutionAux_prefix get t.pooling_period_seconds N 0
    fuel hfuel hgood0
  refine ⟨hc, hs, ?_⟩
  have hmem : N ∈
      (runExecutionAux get t.pooling_period_seconds fuel 0).calls.take (N + 1) := by
    rw [hc]
    simp [List.mem_range'_1]
  exact List.take_subset _ _ hmem

/-- Witness for C8 with N = 2. -/
theorem claim_C8_witness :
    (sampleExecutionTrigger.run samplePollResponses 3).calls.take 3 =
      List.range' 0 3 ∧
    (sampleExecutionTrigger.run samplePollResponses 3).sleeps.take 2 =
      List.replicate 2 30 ∧
    2 ∈ (sampleExecutionTrigger.run samplePollResponses 3).calls :=
  claim_C8 sampleExecutionTrigger samplePollResponses 2 3 (by decide) (by decide)

/-- C9: the done check precedes the error check — a first handle with
`done = true` and a non-empty error message makes `run()` yield the
terminal event and terminate normally rather than raise. -/
theorem claim_C9 (t : CloudComposerExecutionTrigger) (get : Nat → Operation)
    (fuel : Nat) (hdone : (get 0).done = true)
    (herr : (get 0).error.message ≠ "") :
    t.run get (fuel + 1) =
      ⟨[0], [], PollOutcome.yielded
        [TriggerEvent.operationEvent (get 0).name true]⟩ := by
  unfold CloudComposerExecutionTrigger.run
  rw [runExecutionAux_done get t.pooling_period_seconds 0 fuel hdone, hdone]

/-- Witness for C9 at a concrete watcher and client. -/
theorem claim_C9_witness :
    sampleExecutionTrigger.run doneWithError 1 =
      ⟨[0], [], PollOutcome.yielded
        [TriggerEvent.operationEvent "operations/op-1" true]⟩ :=
  claim_C9 sampleExecutionTrigger doneWithError 0 rfl (by decide)

/-- C10: the terminal event's name comes from the final handle, not the
constructor parameter — even when the handle's name differs from the
configured `operation_name`, the event carries the handle's name. -/
theorem claim_C10 (t : CloudComposerExecutionTrigger) (get : Nat → Operation)
    (fuel : Nat) (hdone : (get 0).done = true)
    (hname : (get 0).name ≠ t.operation_name) :
    (t.run get (fuel + 1)).outcome =
      PollOutcome.yielded [TriggerEvent.operationEvent (get 0).name true] := by
  unfold CloudComposerExecutionTrigger.run
  rw [runExecutionAux_done get t.pooling_period_seconds 0 fuel hdone, hdone]

/-- Witness for C10 at a concrete watcher and a client whose handle name
differs from the configured one. -/
theorem claim_C10_witness :
    (sampleExecutionTrigger.run renamedDoneHandle 1).outcome =
      PollOutcome.yielded [TriggerEvent.operationEvent "operations/op-2" true] :=
  claim_C10 sampleExecutionTrigger renamedDoneHandle 0 rfl (by decide)
